import Mathlib

/-!
Shallow embedding of ctrl.py, a CLI that bootstraps a GitOps (flux)
controller into a kubernetes cluster and manages per-tenant namespaces.
Every cluster mutation and subprocess invocation is recorded as an event,
so sequencing, abort-on-failure and no-rollback properties can be stated
about the produced traces. The kubernetes API server and the flux binary
are external to the repository; their contracts are modelled from the
specification and marked as such.
-/

namespace Ctrl

/-- Python dict lookup on an insertion-ordered association list. -/
def alookup (l : List (String × String)) (k : String) : Option String :=
  match l with
  | [] => Option.none
  | (k', v) :: rest => if k' = k then some v else alookup rest k

/-- Python dict assignment: replace the value when the key is present,
otherwise append the new pair (dicts preserve insertion order). -/
def dictSet (l : List (String × String)) (k v : String) : List (String × String) :=
  match l with
  | [] => [(k, v)]
  | (k', v') :: rest => if k' = k then (k, v) :: rest else (k', v') :: dictSet rest k v

/-- Python str truthiness for an optional string: None and the empty
string are falsy. -/
def pyTruthy : Option String → Bool
  | Option.none => false
  | some s => if s = "" then false else true

/-- Whitespace characters stripped by Python str.strip(). -/
def pySpace (c : Char) : Bool :=
  c = ' ' || c = '\t' || c = '\n' || c = '\r' || c = '\x0b' || c = '\x0c'

/-- Python str.strip(): drop whitespace from both ends. -/
def pyStrip (s : String) : String :=
  ⟨((s.data.dropWhile pySpace).reverse.dropWhile pySpace).reverse⟩

/-- Python str.upper() for the ASCII strings used in this program. -/
def pyUpper (s : String) : String :=
  ⟨s.data.map Char.toUpper⟩

/-- ctrl.py line 18: label key holding the tenant display name. -/
def tenant_name_label : String :=
  "flux-multitenant-demo.ringerc.github.com/tenant-name"

/-- ctrl.py line 19: flux tenancy label key. -/
def flux_tenant_label : String :=
  "toolkit.fluxcd.io/tenant"

/-- A namespace record as returned by the cluster: name, labels, phase. -/
structure NsRecord where
  name : String
  labels : List (String × String)
  phase : String
deriving DecidableEq, Repr

/-- V1ConfigMap as built by tenant_add: metadata name and namespace, data. -/
structure ConfigMapRec where
  name : String
  ns : Option String
  data : List (String × String)
deriving DecidableEq, Repr

/-- V1ServiceAccount metadata as built by tenant_add. -/
structure SaRec where
  name : String
  ns : Option String
  labels : List (String × String)
deriving DecidableEq, Repr

/-- V1RoleRef. -/
structure RoleRef where
  api_group : String
  kind : String
  name : String
deriving DecidableEq, Repr

/-- V1Subject: api_group and namespace are optional, as in the source. -/
structure Subject where
  api_group : Option String
  kind : String
  name : String
  ns : Option String
deriving DecidableEq, Repr

/-- V1RoleBinding as built by tenant_add. -/
structure RbRec where
  name : String
  ns : Option String
  labels : List (String × String)
  role_ref : RoleRef
  subjects : List Subject
deriving DecidableEq, Repr

/-- The flux Kustomization document: the fields of the template that
ctrl.py reads or mutates. spec_postBuild_substitute is None when the
template lacks a spec.postBuild.substitute map (indexing it then raises). -/
structure Kustomization where
  metadata_name : String
  metadata_namespace : Option String
  spec_targetNamespace : Option String
  spec_postBuild_substitute : Option (List (String × String))
deriving DecidableEq, Repr

/-- A custom object stored by the cluster under group, version,
namespace and plural. -/
structure CustomObjectRec where
  group : String
  version : String
  ns : String
  plural : String
  body : Kustomization
deriving DecidableEq, Repr

/-- Modelled cluster state: the object collections this tool touches,
each in creation order. -/
structure Cluster where
  namespaces : List NsRecord
  configMaps : List (String × ConfigMapRec)
  serviceAccounts : List (String × SaRec)
  roleBindings : List (String × RbRec)
  customObjects : List CustomObjectRec
deriving DecidableEq, Repr

/-- The cluster holding no objects at all. -/
def emptyCluster : Cluster :=
  { namespaces := [], configMaps := [], serviceAccounts := [],
    roleBindings := [], customObjects := [] }

/-- One observable external action of the tool: a subprocess invocation
or a cluster API call. -/
inductive Ev where
  | run (argv : List String)
  | createNs (r : NsRecord)
  | createConfigMap (ns : String) (cm : ConfigMapRec)
  | createServiceAccount (ns : String) (sa : SaRec)
  | createRoleBinding (ns : String) (rb : RbRec)
  | createCustomObject (group version ns plural : String) (body : Kustomization)
  | listNs (field_selector : Option String) (label_selector : Option String)
  | deleteNs (name : String)
deriving DecidableEq, Repr

/-- Errors surfaced by the modelled cluster API (spec section 4.1). -/
inductive ApiError where
  | alreadyExists
  | unreachable
deriving DecidableEq, Repr

/-- Modelled from the spec: list-namespaces field-selector semantics of
the cluster API (the kubernetes API server is not part of this
repository). The only field selector this tool ever builds is an exact
match on metadata.name, so a selector matches a record exactly when it is
the metadata.name equality for that record. -/
def fieldSelectorMatches (sel : Option String) (r : NsRecord) : Bool :=
  match sel with
  | Option.none => true
  | some s => if s = "metadata.name=" ++ r.name then true else false

/-- Modelled from the spec: list-namespaces label-selector semantics of
the cluster API. The tool builds two selector shapes: a bare label key,
matching any namespace carrying that label at all, and an exact key=value
equality. A label (k, v) satisfies the selector when the selector string
is the key k itself or the string k=v. -/
def labelSelectorMatches (sel : String) (labels : List (String × String)) : Bool :=
  labels.any (fun kv => sel = kv.1 || sel = kv.1 ++ "=" ++ kv.2)

/-- Optional label selector: absent means no filtering. -/
def labelSelectorOptMatches (sel : Option String) (labels : List (String × String)) : Bool :=
  match sel with
  | Option.none => true
  | some s => labelSelectorMatches s labels

/-- Modelled from the spec: list-namespaces(label-selector?,
field-selector?) returns the ordered sequence of matching namespace
records, empty when none match. -/
def list_namespace (c : Cluster) (field_selector : Option String)
    (label_selector : Option String) : List NsRecord :=
  c.namespaces.filter
    (fun r => fieldSelectorMatches field_selector r &&
              labelSelectorOptMatches label_selector r.labels)

/-- One printed row of tenant list: namespace, tenant name, phase. -/
structure TenantRow where
  nsName : String
  tenantName : String
  phase : String
deriving DecidableEq, Repr

/-- ctrl.py lines 150-159, tenant_list: query namespaces carrying the
tenant-name label (bare-key selector) and print one row per match, in the
order returned, with the namespace name, the value of the tenant-name
label and the namespace phase. Only the rows are modelled; the header is
constant text. -/
def tenant_list (c : Cluster) : List TenantRow :=
  (list_namespace c Option.none (some tenant_name_label)).map fun r =>
    { nsName := r.name,
      tenantName := (alookup r.labels tenant_name_label).getD "",
      phase := r.phase }

/-- Outcome of tenant_delete. usageError models the usage message plus
sys.exit(1); notFound models the not-found message plus sys.exit(1);
tooManyMatches models the uncaught RuntimeError; assertFailed models the
failing consistency assert (uncaught AssertionError). -/
inductive DeleteOutcome where
  | usageError
  | deleted (nsName : String)
  | assertFailed
  | tooManyMatches
  | notFound
deriving DecidableEq, Repr

/-- Process exit status for each tenant_delete outcome: explicit
sys.exit(1) for the usage and not-found paths, 1 for an uncaught Python
exception, 0 when the deletion request was issued. -/
def DeleteOutcome.exitCode : DeleteOutcome → Nat
  | .usageError => 1
  | .deleted _ => 0
  | .assertFailed => 1
  | .tooManyMatches => 1
  | .notFound => 1

/-- ctrl.py lines 170-173: the field selector is metadata.name equality
when a truthy tenant namespace argument was given, else absent. -/
def deleteFieldSelector (tns : Option String) : Option String :=
  if pyTruthy tns then some ("metadata.name=" ++ tns.getD "") else Option.none

/-- ctrl.py lines 174-177: the label selector is tenant-name-label=value
when a truthy tenant name argument was given, else the bare label key. -/
def deleteLabelSelector (tname : Option String) : String :=
  if pyTruthy tname then tenant_name_label ++ "=" ++ tname.getD "" else tenant_name_label

/-- ctrl.py lines 161-188, tenant_delete. Arguments are the argparse
values of the two optional flags (None when absent). Returns the outcome
together with the trace of cluster API calls issued. Python string or
None equality and truthiness are modelled exactly: the assert compares
the matched name with the namespace argument, and a comparison with None
is false. -/
def tenant_delete (c : Cluster) (tns tname : Option String) : DeleteOutcome × List Ev :=
  if !(pyTruthy tns || pyTruthy tname) then (.usageError, [])
  else
    let fs := deleteFieldSelector tns
    let ls := deleteLabelSelector tname
    let items := list_namespace c fs (some ls)
    let q := Ev.listNs fs (some ls)
    match items with
    | [it] =>
        if tns = some it.name ∨ pyTruthy tns = false then
          (.deleted it.name, [q, Ev.deleteNs it.name])
        else
          (.assertFailed, [q])
    | [] => (.notFound, [q])
    | _ :: _ :: _ => (.tooManyMatches, [q])

/-- Modelled from the spec: create-namespace(name, labels) either
succeeds, appending the record, or fails with AlreadyExists when a
namespace of that name exists. -/
def Cluster.createNamespace (c : Cluster) (r : NsRecord) : Except ApiError Cluster :=
  if c.namespaces.any (fun x => x.name = r.name) then Except.error ApiError.alreadyExists
  else Except.ok { c with namespaces := c.namespaces ++ [r] }

/-- Modelled from the spec: create-config-map(namespace, name, data),
failing with AlreadyExists when that namespace already holds a config map
of that name. -/
def Cluster.createConfigMap (c : Cluster) (ns : String) (cm : ConfigMapRec) :
    Except ApiError Cluster :=
  if c.configMaps.any (fun x => x.1 = ns && x.2.name = cm.name) then
    Except.error ApiError.alreadyExists
  else Except.ok { c with configMaps := c.configMaps ++ [(ns, cm)] }

/-- Modelled from the spec: create-service-account(namespace, name,
labels), failing with AlreadyExists on a duplicate name. -/
def Cluster.createServiceAccount (c : Cluster) (ns : String) (sa : SaRec) :
    Except ApiError Cluster :=
  if c.serviceAccounts.any (fun x => x.1 = ns && x.2.name = sa.name) then
    Except.error ApiError.alreadyExists
  else Except.ok { c with serviceAccounts := c.serviceAccounts ++ [(ns, sa)] }

/-- Modelled from the spec: create-role-binding(namespace, name,
role-ref, subjects), failing with AlreadyExists on a duplicate name. -/
def Cluster.createRoleBinding (c : Cluster) (ns : String) (rb : RbRec) :
    Except ApiError Cluster :=
  if c.roleBindings.any (fun x => x.1 = ns && x.2.name = rb.name) then
    Except.error ApiError.alreadyExists
  else Except.ok { c with roleBindings := c.roleBindings ++ [(ns, rb)] }

/-- Modelled from the spec: create-custom-resource(group, version,
namespace, plural, document), failing with AlreadyExists on a duplicate
document name under the same group, plural and namespace. -/
def Cluster.createCustomObject (c : Cluster) (g v ns p : String) (body : Kustomization) :
    Except ApiError Cluster :=
  if c.customObjects.any
      (fun x => x.group = g && x.plural = p && x.ns = ns &&
                x.body.metadata_name = body.metadata_name) then
    Except.error ApiError.alreadyExists
  else
    Except.ok { c with customObjects :=
      c.customObjects ++ [{ group := g, version := v, ns := ns, plural := p, body := body }] }

/-- Injected environment for cluster calls: reachable ev is false when
the cluster is unreachable for that call (spec section 4.1 lists
ClusterUnreachable among the failures every call may surface). -/
structure ApiWorld where
  reachable : Ev → Bool

/-- The world in which every cluster call is reachable. -/
def reachableWorld : ApiWorld := ⟨fun _ => true⟩

/-- Execute one cluster API call against the modelled cluster, first
consulting reachability, then the per-operation contract. Query and
delete calls mutate nothing here: deletion is asynchronous on the
cluster side (spec section 4.1) and the namespaces this tool deletes are
observed through later queries, which no claim composes. -/
def apply1 (w : ApiWorld) (c : Cluster) (ev : Ev) : Except ApiError Cluster :=
  if !(w.reachable ev) then Except.error ApiError.unreachable
  else
    match ev with
    | Ev.createNs r => c.createNamespace r
    | Ev.createConfigMap ns cm => c.createConfigMap ns cm
    | Ev.createServiceAccount ns sa => c.createServiceAccount ns sa
    | Ev.createRoleBinding ns rb => c.createRoleBinding ns rb
    | Ev.createCustomObject g v ns p body => c.createCustomObject g v ns p body
    | Ev.listNs _ _ => Except.ok c
    | Ev.deleteNs _ => Except.ok c
    | Ev.run _ => Except.ok c

/-- Result of running a straight-line sequence of cluster calls: the
calls attempted in order, the final cluster state, and the first error
when one occurred. -/
structure RunOut where
  trace : List Ev
  cluster : Cluster
  error : Option ApiError
deriving Repr

/-- Run calls in order, stopping at the first failure: exactly the
behaviour of a straight-line Python sequence of client calls, where an
exception aborts the remainder and already-applied effects stay. -/
def runCalls (w : ApiWorld) (c : Cluster) : List Ev → RunOut
  | [] => { trace := [], cluster := c, error := Option.none }
  | ev :: rest =>
    match apply1 w c ev with
    | Except.error e => { trace := [ev], cluster := c, error := some e }
    | Except.ok c' =>
      let out := runCalls w c' rest
      { trace := ev :: out.trace, cluster := out.cluster, error := out.error }

/-- Python-side failures of the template load and mutation step. -/
inductive PyError where
  | fileNotFound
  | yamlMalformed
  | keyError
deriving DecidableEq, Repr

/-- A failure of tenant_add: either the template step failed before any
cluster call, or a cluster call failed. -/
inductive AddFailure where
  | template (e : PyError)
  | api (e : ApiError)
deriving DecidableEq, Repr

/-- ctrl.py lines 63-69: the three in-memory mutations of the loaded
template. metadata.namespace and spec.targetNamespace are set to the
tenant namespace; then SUBST_LITERAL in spec.postBuild.substitute is set
to the tenant name, raising KeyError when the template carries no
spec.postBuild.substitute map. -/
def mutateKustomization (t : Kustomization) (tns tname : String) :
    Except PyError Kustomization :=
  match t.spec_postBuild_substitute with
  | Option.none => Except.error PyError.keyError
  | some subs =>
      Except.ok { t with
        metadata_namespace := some tns,
        spec_targetNamespace := some tns,
        spec_postBuild_substitute := some (dictSet subs "SUBST_LITERAL" tname) }

/-- The whole step 1 of tenant_add: the outcome of opening and parsing
the template file, followed by the three mutations. -/
def descriptor (load : Except PyError Kustomization) (tns tname : String) :
    Except PyError Kustomization :=
  match load with
  | Except.error e => Except.error e
  | Except.ok t => mutateKustomization t tns tname

/-- ctrl.py lines 79-86: the namespace record created for a tenant, with
the two identifying labels; a namespace created by the cluster enters
the Active phase. -/
def tenantNsRecord (tns tname : String) : NsRecord :=
  { name := tns,
    labels := [(tenant_name_label, tname), (flux_tenant_label, tns)],
    phase := "Active" }

/-- ctrl.py lines 86-145: the five cluster calls tenant_add issues, in
source order, for a given mutated descriptor fk. -/
def tenant_add_calls (tns tname : String) (fk : Kustomization) : List Ev :=
  [ Ev.createNs (tenantNsRecord tns tname),
    Ev.createConfigMap tns
      { name := "tenant-vars", ns := some tns,
        data := [("PER_TENANT_SUBST",
                  "This tenant name is \"" ++ tname ++ "\"")] },
    Ev.createServiceAccount tns
      { name := tns, ns := some tns, labels := [(flux_tenant_label, tns)] },
    Ev.createRoleBinding tns
      { name := tns ++ "-reconciler", ns := some tns,
        labels := [(flux_tenant_label, tns)],
        role_ref := { api_group := "rbac.authorization.k8s.io",
                      kind := "ClusterRole", name := "cluster-admin" },
        subjects := [
          { api_group := some "rbac.authorization.k8s.io", kind := "User",
            name := "gotk:" ++ tns ++ ":reconciler", ns := Option.none },
          { api_group := Option.none, kind := "ServiceAccount",
            name := tns, ns := some tns } ] },
    Ev.createCustomObject "kustomize.toolkit.fluxcd.io" "v1beta2" tns
      "kustomizations" fk ]

/-- Result of tenant_add: attempted cluster calls in order, resulting
cluster state, and the failure when one occurred. -/
structure AddOut where
  trace : List Ev
  cluster : Cluster
  failure : Option AddFailure
deriving Repr

/-- ctrl.py lines 51-147, tenant_add: load and mutate the template, then
issue the five creation calls in order, aborting at the first failure.
load stands for the outcome of opening and yaml-parsing the fixed-path
template file, which is an input of the run. -/
def tenant_add (w : ApiWorld) (c : Cluster) (load : Except PyError Kustomization)
    (tns tname : String) : AddOut :=
  match descriptor load tns tname with
  | Except.error e => { trace := [], cluster := c, failure := some (AddFailure.template e) }
  | Except.ok fk =>
      let out := runCalls w c (tenant_add_calls tns tname fk)
      { trace := out.trace, cluster := out.cluster,
        failure := out.error.map AddFailure.api }

/-- Modelled from the spec: the fixed-path tenant deployment descriptor
template file tenant-flux-kustomization-template.yaml is part of the
repository but not among the given source files. The spec (section 6)
requires it to describe the per-tenant deployment resource and to
contain a spec with a post-build substitution map. -/
def templateFile : Kustomization :=
  { metadata_name := "dummy",
    metadata_namespace := Option.none,
    spec_targetNamespace := Option.none,
    spec_postBuild_substitute := some [] }

/-- Injected environment for subprocess invocations: whether a given
argv exits with status zero, and the standard output of the git
remote-URL query. -/
structure SubprocWorld where
  ok : List String → Bool
  gitOriginStdout : String

/-- The argv of the git remote URL query in get_git_url (ctrl.py line 23). -/
def gitRemoteCmd : List String := ["git", "remote", "get-url", "origin"]

/-- The fixed flux installer argv (ctrl.py lines 36-38). -/
def fluxInstallCmd : List String :=
  ["flux", "install", "-n", "flux-system", "--watch-all-namespaces"]

/-- ctrl.py lines 21-23, get_git_url: run the git remote URL query with
check=True; None models the raised CalledProcessError when it exits
non-zero, otherwise the captured standard output is returned. -/
def get_git_url (w : SubprocWorld) : Option String :=
  if w.ok gitRemoteCmd then some w.gitOriginStdout else Option.none

/-- The argparse Namespace for the bootstrap subcommand. argparse
converts the flag names, so the attributes are kube_cluster,
no_hack_message, git_url and func; an optional flag left unset is
present with value None. -/
structure BootstrapArgs where
  kube_cluster : Option String
  git_url : Option String
deriving DecidableEq, Repr

/-- The attribute names present on the bootstrap argparse Namespace. -/
def bootstrapArgAttrs : List String :=
  ["kube_cluster", "no_hack_message", "git_url", "func"]

/-- Python hasattr on the bootstrap Namespace. -/
def pyHasattr (n : String) : Bool := bootstrapArgAttrs.contains n

/-- Python getattr(args, n, default) restricted to the string-or-None
valued attributes of the bootstrap Namespace: the attribute value when
an attribute of exactly that name exists, the default otherwise. -/
def pyGetattr (args : BootstrapArgs) (n : String) (default : Option String) :
    Option String :=
  if n = "kube_cluster" then args.kube_cluster
  else if n = "git_url" then args.git_url
  else default

/-- Result of bootstrap: subprocess invocations attempted in order,
whether the run completed without a failed subprocess, and the URL
handed to the source-registration call when that point was reached. -/
structure BootOut where
  trace : List Ev
  exitOk : Bool
  srcUrl : Option String
deriving Repr

/-- ctrl.py lines 25-49, bootstrap. The installer argv gains a
cluster flag only when the Namespace has an attribute named cluster,
which argparse never creates (the flag is stored as kube_cluster). The
git URL is getattr(args, "git-url", get_git_url()).strip(): Python
evaluates the default argument eagerly, so the git subprocess always
runs once the installer call succeeded, and the attribute lookup uses
the dashed name "git-url", which is never an attribute (argparse stores
git_url), so the default is always taken. -/
def bootstrap (w : SubprocWorld) (args : BootstrapArgs) : BootOut :=
  let install_cmd :=
    if pyHasattr "cluster" then
      fluxInstallCmd ++ ["--cluster=" ++ (pyGetattr args "cluster" Option.none).getD ""]
    else fluxInstallCmd
  if !(w.ok install_cmd) then
    { trace := [Ev.run install_cmd], exitOk := false, srcUrl := Option.none }
  else
    match get_git_url w with
    | Option.none =>
        { trace := [Ev.run install_cmd, Ev.run gitRemoteCmd],
          exitOk := false, srcUrl := Option.none }
    | some stdout =>
        let git_url := pyStrip ((pyGetattr args "git-url" (some stdout)).getD "")
        let create_src_cmd :=
          ["flux", "create", "source", "git", "default",
           "--url=" ++ git_url, "--silent", "--branch=main",
           "--ignore-paths=ctrl.py,README.md"]
        { trace := [Ev.run install_cmd, Ev.run gitRemoteCmd, Ev.run create_src_cmd],
          exitOk := w.ok create_src_cmd, srcUrl := some git_url }

/-- ctrl.py line 193: the obfuscated environment variable name, built
by concatenating G, ITH, the uppercased ub_tok, and the uppercased
two-character string written with the escapes \105 and \x6e, which
denote E and n. -/
def hackEnvVarName : String :=
  "G" ++ "ITH" ++ pyUpper "ub_tok" ++ pyUpper "En"

/-- Outcome of security_reminder: exit 1 after the warning, or proceed
after printing the read-the-script note. -/
inductive ReminderResult where
  | exit1
  | proceed
deriving DecidableEq, Repr

/-- ctrl.py lines 190-208, security_reminder: read the obfuscated
environment variable with default empty; a truthy value prints the
warning and exits 1, otherwise execution proceeds. env is the process
environment as an association list. -/
def security_reminder (env : List (String × String)) : ReminderResult :=
  let tok := (alookup env hackEnvVarName).getD ""
  if pyTruthy (some tok) then ReminderResult.exit1 else ReminderResult.proceed

/-- What main does after argument parsing: either it exits inside
security_reminder before dispatching, or it dispatches the selected
workflow function. -/
inductive MainOutcome where
  | exitBeforeDispatch (code : Nat)
  | dispatched (verb : String)
deriving DecidableEq, Repr

/-- ctrl.py lines 238-241: security_reminder runs unless
--no-hack-message was given, and only then is the selected workflow
dispatched. verb names the workflow chosen by the subparsers. -/
def main_after_parse (env : List (String × String)) (no_hack_message : Bool)
    (verb : String) : MainOutcome :=
  if !no_hack_message then
    match security_reminder env with
    | ReminderResult.exit1 => MainOutcome.exitBeforeDispatch 1
    | ReminderResult.proceed => MainOutcome.dispatched verb
  else MainOutcome.dispatched verb

/-- A cluster holding two namespaces that both carry the tenant-name
label with value X: an ambiguous state for a delete by tenant name. -/
def twoTenantCluster : Cluster :=
  { namespaces :=
      [ { name := "team-a", labels := [(tenant_name_label, "X")], phase := "Active" },
        { name := "team-b", labels := [(tenant_name_label, "X")], phase := "Active" } ],
    configMaps := [], serviceAccounts := [], roleBindings := [], customObjects := [] }

/-- A cluster holding exactly the namespace of one provisioned tenant. -/
def oneTenantCluster : Cluster :=
  { namespaces := [tenantNsRecord "team-a" "Team A"],
    configMaps := [], serviceAccounts := [], roleBindings := [], customObjects := [] }

/-- The effect a successful call leaves in the cluster: the created
object is present. Queries, deletions and subprocess events leave no
tracked effect. -/
def evEffectIn : Ev → Cluster → Prop
  | Ev.createNs r, c => r ∈ c.namespaces
  | Ev.createConfigMap ns cm, c => (ns, cm) ∈ c.configMaps
  | Ev.createServiceAccount ns sa, c => (ns, sa) ∈ c.serviceAccounts
  | Ev.createRoleBinding ns rb, c => (ns, rb) ∈ c.roleBindings
  | Ev.createCustomObject g v ns p body, c =>
      ({ group := g, version := v, ns := ns, plural := p, body := body } : CustomObjectRec)
        ∈ c.customObjects
  | Ev.listNs _ _, _ => True
  | Ev.deleteNs _, _ => True
  | Ev.run _, _ => True

/-- c grows into c2 when every object collection of c2 extends the
corresponding collection of c at the end: nothing created earlier is
removed or reordered. -/
def Cluster.Grows (c c2 : Cluster) : Prop :=
  (∃ t, c.namespaces ++ t = c2.namespaces) ∧
  (∃ t, c.configMaps ++ t = c2.configMaps) ∧
  (∃ t, c.serviceAccounts ++ t = c2.serviceAccounts) ∧
  (∃ t, c.roleBindings ++ t = c2.roleBindings) ∧
  (∃ t, c.customObjects ++ t = c2.customObjects)

theorem Cluster.Grows.refl (c : Cluster) : Cluster.Grows c c :=
  ⟨⟨[], List.append_nil _⟩, ⟨[], List.append_nil _⟩, ⟨[], List.append_nil _⟩,
   ⟨[], List.append_nil _⟩, ⟨[], List.append_nil _⟩⟩

theorem Cluster.Grows.trans {a b c : Cluster} (h1 : Cluster.Grows a b)
    (h2 : Cluster.Grows b c) : Cluster.Grows a c := by
  obtain ⟨⟨t1, e1⟩, ⟨t2, e2⟩, ⟨t3, e3⟩, ⟨t4, e4⟩, ⟨t5, e5⟩⟩ := h1
  obtain ⟨⟨u1, f1⟩, ⟨u2, f2⟩, ⟨u3, f3⟩, ⟨u4, f4⟩, ⟨u5, f5⟩⟩ := h2
  exact ⟨⟨t1 ++ u1, by rw [← List.append_assoc, e1, f1]⟩,
         ⟨t2 ++ u2, by rw [← List.append_assoc, e2, f2]⟩,
         ⟨t3 ++ u3, by rw [← List.append_assoc, e3, f3]⟩,
         ⟨t4 ++ u4, by rw [← List.append_assoc, e4, f4]⟩,
         ⟨t5 ++ u5, by rw [← List.append_assoc, e5, f5]⟩⟩

theorem apply1_ok_grows {w : ApiWorld} {c c2 : Cluster} {ev : Ev}
    (h : apply1 w c ev = Except.ok c2) : Cluster.Grows c c2 := by
  cases ev with
  | createNs r =>
      simp only [apply1, Cluster.createNamespace] at h
      split at h
      · exact absurd h (by simp)
      split at h
      · exact absurd h (by simp)
      cases h
      exact ⟨⟨[r], rfl⟩, ⟨[], List.append_nil _⟩, ⟨[], List.append_nil _⟩,
             ⟨[], List.append_nil _⟩, ⟨[], List.append_nil _⟩⟩
  | createConfigMap ns cm =>
      simp only [apply1, Cluster.createConfigMap] at h
      split at h
      · exact absurd h (by simp)
      split at h
      · exact absurd h (by simp)
      cases h
      exact ⟨⟨[], List.append_nil _⟩, ⟨[(ns, cm)], rfl⟩, ⟨[], List.append_nil _⟩,
             ⟨[], List.append_nil _⟩, ⟨[], List.append_nil _⟩⟩
  | createServiceAccount ns sa =>
      simp only [apply1, Cluster.createServiceAccount] at h
      split at h
      · exact absurd h (by simp)
      split at h
      · exact absurd h (by simp)
      cases h
      exact ⟨⟨[], List.append_nil _⟩, ⟨[], List.append_nil _⟩, ⟨[(ns, sa)], rfl⟩,
             ⟨[], List.append_nil _⟩, ⟨[], List.append_nil _⟩⟩
  | createRoleBinding ns rb =>
      simp only [apply1, Cluster.createRoleBinding] at h
      split at h
      · exact absurd h (by simp)
      split at h
      · exact absurd h (by simp)
      cases h
      exact ⟨⟨[], List.append_nil _⟩, ⟨[], List.append_nil _⟩, ⟨[], List.append_nil _⟩,
             ⟨[(ns, rb)], rfl⟩, ⟨[], List.append_nil _⟩⟩
  | createCustomObject g v ns p body =>
      simp only [apply1, Cluster.createCustomObject] at h
      split at h
      · exact absurd h (by simp)
      split at h
      · exact absurd h (by simp)
      cases h
      exact ⟨⟨[], List.append_nil _⟩, ⟨[], List.append_nil _⟩, ⟨[], List.append_nil _⟩,
             ⟨[], List.append_nil _⟩,
             ⟨[{ group := g, version := v, ns := ns, plural := p, body := body }], rfl⟩⟩
  | listNs fs ls =>
      simp only [apply1] at h
      split at h
      · exact absurd h (by simp)
      cases h
      exact Cluster.Grows.refl _
  | deleteNs n =>
      simp only [apply1] at h
      split at h
      · exact absurd h (by simp)
      cases h
      exact Cluster.Grows.refl _
  | run argv =>
      simp only [apply1] at h
      split at h
      · exact absurd h (by simp)
      cases h
      exact Cluster.Grows.refl _

theorem apply1_ok_effect {w : ApiWorld} {c c2 : Cluster} {ev : Ev}
    (h : apply1 w c ev = Except.ok c2) : evEffectIn ev c2 := by
  cases ev with
  | createNs r =>
      simp only [apply1, Cluster.createNamespace] at h
      split at h
      · exact absurd h (by simp)
      split at h
      · exact absurd h (by simp)
      cases h; simp [evEffectIn]
  | createConfigMap ns cm =>
      simp only [apply1, Cluster.createConfigMap] at h
      split at h
      · exact absurd h (by simp)
      split at h
      · exact absurd h (by simp)
      cases h; simp [evEffectIn]
  | createServiceAccount ns sa =>
      simp only [apply1, Cluster.createServiceAccount] at h
      split at h
      · exact absurd h (by simp)
      split at h
      · exact absurd h (by simp)
      cases h; simp [evEffectIn]
  | createRoleBinding ns rb =>
      simp only [apply1, Cluster.createRoleBinding] at h
      split at h
      · exact absurd h (by simp)
      split at h
      · exact absurd h (by simp)
      cases h; simp [evEffectIn]
  | createCustomObject g v ns p body =>
      simp only [apply1, Cluster.createCustomObject] at h
      split at h
      · exact absurd h (by simp)
      split at h
      · exact absurd h (by simp)
      cases h; simp [evEffectIn]
  | listNs fs ls => simp [evEffectIn]
  | deleteNs n => simp [evEffectIn]
  | run argv => simp [evEffectIn]

theorem evEffectIn_mono {ev : Ev} {c c2 : Cluster} (hg : Cluster.Grows c c2)
    (h : evEffectIn ev c) : evEffectIn ev c2 := by
  obtain ⟨⟨t1, e1⟩, ⟨t2, e2⟩, ⟨t3, e3⟩, ⟨t4, e4⟩, ⟨t5, e5⟩⟩ := hg
  cases ev with
  | createNs r =>
      simp only [evEffectIn] at h ⊢
      rw [← e1]; exact List.mem_append_left _ h
  | createConfigMap ns cm =>
      simp only [evEffectIn] at h ⊢
      rw [← e2]; exact List.mem_append_left _ h
  | createServiceAccount ns sa =>
      simp only [evEffectIn] at h ⊢
      rw [← e3]; exact List.mem_append_left _ h
  | createRoleBinding ns rb =>
      simp only [evEffectIn] at h ⊢
      rw [← e4]; exact List.mem_append_left _ h
  | createCustomObject g v ns p body =>
      simp only [evEffectIn] at h ⊢
      rw [← e5]; exact List.mem_append_left _ h
  | listNs fs ls => trivial
  | deleteNs n => trivial
  | run argv => trivial

theorem runCalls_cons (w : ApiWorld) (c : Cluster) (ev : Ev) (evs : List Ev) :
    runCalls w c (ev :: evs) =
      match apply1 w c ev with
      | Except.error e => { trace := [ev], cluster := c, error := some e }
      | Except.ok c' =>
          let out := runCalls w c' evs
          { trace := ev :: out.trace, cluster := out.cluster, error := out.error } := rfl

theorem runCalls_trace_initial (w : ApiWorld) (c : Cluster) (evs : List Ev) :
    ∃ t, (runCalls w c evs).trace ++ t = evs := by
  induction evs generalizing c with
  | nil => exact ⟨[], rfl⟩
  | cons ev rest ih =>
      unfold runCalls
      cases h : apply1 w c ev with
      | error e => exact ⟨rest, rfl⟩
      | ok c' =>
          obtain ⟨t, ht⟩ := ih c'
          exact ⟨t, by simpa using ht⟩

theorem runCalls_grows (w : ApiWorld) (c : Cluster) (evs : List Ev) :
    Cluster.Grows c (runCalls w c evs).cluster := by
  induction evs generalizing c with
  | nil => exact Cluster.Grows.refl c
  | cons ev rest ih =>
      unfold runCalls
      cases h : apply1 w c ev with
      | error e => exact Cluster.Grows.refl c
      | ok c' => exact (apply1_ok_grows h).trans (ih c')

theorem runCalls_none_trace (w : ApiWorld) (c : Cluster) (evs : List Ev)
    (h : (runCalls w c evs).error = Option.none) : (runCalls w c evs).trace = evs := by
  induction evs generalizing c with
  | nil => rfl
  | cons ev rest ih =>
      unfold runCalls at h ⊢
      cases ha : apply1 w c ev with
      | error e => rw [ha] at h; exact absurd h (by simp)
      | ok c' =>
          rw [ha] at h
          simpa using ih c' h

theorem runCalls_none_effects (w : ApiWorld) (c : Cluster) (evs : List Ev)
    (h : (runCalls w c evs).error = Option.none) :
    ∀ ev ∈ evs, evEffectIn ev (runCalls w c evs).cluster := by
  induction evs generalizing c with
  | nil => intro ev hmem; exact absurd hmem (by simp)
  | cons ev0 rest ih =>
      intro ev hmem
      unfold runCalls at h ⊢
      cases ha : apply1 w c ev0 with
      | error e => rw [ha] at h; exact absurd h (by simp)
      | ok c' =>
          rw [ha] at h
          simp only [] at h
          rcases List.mem_cons.mp hmem with heq | htail
          · subst heq
            exact evEffectIn_mono (runCalls_grows w c' rest) (apply1_ok_effect ha)
          · simpa using ih c' h ev htail

theorem runCalls_error_split (w : ApiWorld) (c : Cluster) (evs : List Ev) (e : ApiError)
    (h : (runCalls w c evs).error = some e) :
    ∃ pre ev, (runCalls w c evs).trace = pre ++ [ev] ∧
      runCalls w c pre =
        { trace := pre, cluster := (runCalls w c evs).cluster, error := Option.none } ∧
      apply1 w (runCalls w c evs).cluster ev = Except.error e := by
  induction evs generalizing c with
  | nil => exact absurd h (by simp [runCalls])
  | cons ev0 rest ih =>
      rw [runCalls_cons] at h ⊢
      cases ha : apply1 w c ev0 with
      | error e' =>
          rw [ha] at h
          dsimp only at h ⊢
          obtain rfl : e' = e := by simpa using h
          exact ⟨[], ev0, rfl, rfl, ha⟩
      | ok c' =>
          rw [ha] at h
          dsimp only at h ⊢
          obtain ⟨pre, ev, htr, hrun, happ⟩ := ih c' h
          refine ⟨ev0 :: pre, ev, ?_, ?_, ?_⟩
          · simpa using htr
          · rw [runCalls_cons, ha]
            dsimp only
            rw [hrun]
          · exact happ

theorem string_append_left_cancel {a b c : String} (h : a ++ b = a ++ c) : b = c := by
  cases a
  cases b
  cases c
  simp [String.ext_iff] at h ⊢
  exact h

theorem tenant_delete_eq (c : Cluster) (tns tname : Option String) :
    tenant_delete c tns tname =
      if !(pyTruthy tns || pyTruthy tname) then (DeleteOutcome.usageError, [])
      else
        match list_namespace c (deleteFieldSelector tns) (some (deleteLabelSelector tname)) with
        | [it] =>
            if tns = some it.name ∨ pyTruthy tns = false then
              (DeleteOutcome.deleted it.name,
               [Ev.listNs (deleteFieldSelector tns) (some (deleteLabelSelector tname)),
                Ev.deleteNs it.name])
            else
              (DeleteOutcome.assertFailed,
               [Ev.listNs (deleteFieldSelector tns) (some (deleteLabelSelector tname))])
        | [] =>
            (DeleteOutcome.notFound,
             [Ev.listNs (deleteFieldSelector tns) (some (deleteLabelSelector tname))])
        | _ :: _ :: _ =>
            (DeleteOutcome.tooManyMatches,
             [Ev.listNs (deleteFieldSelector tns) (some (deleteLabelSelector tname))]) := rfl

theorem bootstrap_no_createNs (ws : SubprocWorld) (bargs : BootstrapArgs) (r : NsRecord) :
    Ev.createNs r ∉ (bootstrap ws bargs).trace := by
  have hpc : pyHasattr "cluster" = false := by decide
  intro hmem
  by_cases h1 : ws.ok fluxInstallCmd = true
  · rcases hg : get_git_url ws with _ | stdout
    · simp [bootstrap, hpc, h1, hg] at hmem
    · simp [bootstrap, hpc, h1, hg] at hmem
  · have h1f : ws.ok fluxInstallCmd = false := by simpa using h1
    simp [bootstrap, hpc, h1f] at hmem

theorem tenant_delete_no_createNs (c : Cluster) (tns tname : Option String) (r : NsRecord) :
    Ev.createNs r ∉ (tenant_delete c tns tname).2 := by
  intro hmem
  rw [tenant_delete_eq] at hmem
  split at hmem
  · simp at hmem
  · split at hmem
    · split at hmem
      · simp at hmem
      · simp at hmem
    · simp at hmem
    · simp at hmem

theorem apply1_ok_namespaces {w : ApiWorld} {c c2 : Cluster} {ev : Ev}
    (h : apply1 w c ev = Except.ok c2) (hnot : ∀ r, ev ≠ Ev.createNs r) :
    c2.namespaces = c.namespaces := by
  cases ev with
  | createNs r => exact absurd rfl (hnot r)
  | createConfigMap ns cm =>
      simp only [apply1, Cluster.createConfigMap] at h
      split at h
      · exact absurd h (by simp)
      split at h
      · exact absurd h (by simp)
      cases h; rfl
  | createServiceAccount ns sa =>
      simp only [apply1, Cluster.createServiceAccount] at h
      split at h
      · exact absurd h (by simp)
      split at h
      · exact absurd h (by simp)
      cases h; rfl
  | createRoleBinding ns rb =>
      simp only [apply1, Cluster.createRoleBinding] at h
      split at h
      · exact absurd h (by simp)
      split at h
      · exact absurd h (by simp)
      cases h; rfl
  | createCustomObject g v ns p body =>
      simp only [apply1, Cluster.createCustomObject] at h
      split at h
      · exact absurd h (by simp)
      split at h
      · exact absurd h (by simp)
      cases h; rfl
  | listNs fs ls =>
      simp only [apply1] at h
      split at h
      · exact absurd h (by simp)
      cases h; rfl
  | deleteNs n =>
      simp only [apply1] at h
      split at h
      · exact absurd h (by simp)
      cases h; rfl
  | run argv =>
      simp only [apply1] at h
      split at h
      · exact absurd h (by simp)
      cases h; rfl

theorem runCalls_namespaces_stable (w : ApiWorld) (c : Cluster) (evs : List Ev)
    (h : ∀ r, Ev.createNs r ∉ evs) :
    (runCalls w c evs).cluster.namespaces = c.namespaces := by
  induction evs generalizing c with
  | nil => rfl
  | cons ev rest ih =>
      rw [runCalls_cons]
      cases ha : apply1 w c ev with
      | error e => rfl
      | ok c' =>
          dsimp only
          have h1 : ∀ r, Ev.createNs r ∉ rest :=
            fun r hr => h r (List.mem_cons_of_mem _ hr)
          have h2 : ∀ r, ev ≠ Ev.createNs r :=
            fun r he => h r (he ▸ List.mem_cons_self _ _)
          rw [ih c' h1, apply1_ok_namespaces ha h2]

/-- C1: evaluation of bootstrap at a failing input. With every
subprocess succeeding, the origin remote URL being
https://origin.example/actual.git and the explicit flag
--git-url https://example.com/r.git supplied, the source-registration
call carries the origin URL, not the supplied URL: the getattr default
is always taken because argparse stores the flag under git_url while
the code looks up the attribute git-url. This contradicts the claim
(and the help text of the flag itself, which calls the current-repo URL
only a default). -/
theorem bootstrap_git_url_flag_ignored :
    (bootstrap ⟨fun _ => true, "https://origin.example/actual.git\n"⟩
        { kube_cluster := Option.none, git_url := some "https://example.com/r.git" }).srcUrl
      = some "https://origin.example/actual.git" ∧
    (bootstrap ⟨fun _ => true, "https://origin.example/actual.git\n"⟩
        { kube_cluster := Option.none, git_url := some "https://example.com/r.git" }).trace
      = [Ev.run fluxInstallCmd, Ev.run gitRemoteCmd,
         Ev.run ["flux", "create", "source", "git", "default",
                 "--url=https://origin.example/actual.git", "--silent", "--branch=main",
                 "--ignore-paths=ctrl.py,README.md"]] ∧
    ¬ (bootstrap ⟨fun _ => true, "https://origin.example/actual.git\n"⟩
        { kube_cluster := Option.none, git_url := some "https://example.com/r.git" }).srcUrl
      = some "https://example.com/r.git" := by decide

/-- C3: tenant add with namespace team-a and name Team A, from an empty
reachable cluster, creates exactly the namespace team-a labelled with
tenant name Team A, the config map tenant-vars in team-a whose key
PER_TENANT_SUBST holds the quoted message, the service account team-a,
the role binding team-a-reconciler referencing ClusterRole cluster-admin
with exactly the two subjects User gotk:team-a:reconciler and
ServiceAccount team-a in namespace team-a, and one custom resource in
namespace team-a whose spec.targetNamespace is team-a and whose
postBuild substitution SUBST_LITERAL is Team A. -/
theorem tenant_add_team_a_scenario :
    (tenant_add reachableWorld emptyCluster (Except.ok templateFile) "team-a" "Team A").failure
      = Option.none ∧
    (tenant_add reachableWorld emptyCluster (Except.ok templateFile) "team-a" "Team A").cluster
      = { namespaces :=
            [ { name := "team-a",
                labels := [(tenant_name_label, "Team A"), (flux_tenant_label, "team-a")],
                phase := "Active" } ],
          configMaps :=
            [ ("team-a",
               { name := "tenant-vars", ns := some "team-a",
                 data := [("PER_TENANT_SUBST", "This tenant name is \"Team A\"")] }) ],
          serviceAccounts :=
            [ ("team-a",
               { name := "team-a", ns := some "team-a",
                 labels := [(flux_tenant_label, "team-a")] }) ],
          roleBindings :=
            [ ("team-a",
               { name := "team-a-reconciler", ns := some "team-a",
                 labels := [(flux_tenant_label, "team-a")],
                 role_ref := { api_group := "rbac.authorization.k8s.io",
                               kind := "ClusterRole", name := "cluster-admin" },
                 subjects :=
                   [ { api_group := some "rbac.authorization.k8s.io", kind := "User",
                       name := "gotk:team-a:reconciler", ns := Option.none },
                     { api_group := Option.none, kind := "ServiceAccount",
                       name := "team-a", ns := some "team-a" } ] }) ],
          customObjects :=
            [ { group := "kustomize.toolkit.fluxcd.io", version := "v1beta2",
                ns := "team-a", plural := "kustomizations",
                body := { metadata_name := "dummy",
                          metadata_namespace := some "team-a",
                          spec_targetNamespace := some "team-a",
                          spec_postBuild_substitute := some [("SUBST_LITERAL", "Team A")] } } ] }
      := by decide

/-- C5: a tenant delete whose selector matches more than one namespace
ends in the unrecoverable too-many-matches error, its trace is the
single namespace query, and in particular no delete-namespace call is
issued for any namespace. -/
theorem tenant_delete_ambiguous_aborts (c : Cluster) (tns tname : Option String)
    (hargs : (pyTruthy tns || pyTruthy tname) = true)
    (hmulti : 1 <
      (list_namespace c (deleteFieldSelector tns) (some (deleteLabelSelector tname))).length) :
    (tenant_delete c tns tname).1 = DeleteOutcome.tooManyMatches ∧
    (tenant_delete c tns tname).2 =
      [Ev.listNs (deleteFieldSelector tns) (some (deleteLabelSelector tname))] ∧
    ∀ n, Ev.deleteNs n ∉ (tenant_delete c tns tname).2 := by
  rw [tenant_delete_eq, hargs]
  rcases hl : list_namespace c (deleteFieldSelector tns) (some (deleteLabelSelector tname)) with
    _ | ⟨a, _ | ⟨b, rest⟩⟩
  · rw [hl] at hmulti; simp at hmulti
  · rw [hl] at hmulti; simp at hmulti
  · simp

/-- C5 witness: deleting by tenant name X in a cluster where two
namespaces carry that tenant name aborts without any deletion call. -/
theorem tenant_delete_ambiguous_aborts_witness :
    (tenant_delete twoTenantCluster Option.none (some "X")).1 = DeleteOutcome.tooManyMatches ∧
    (tenant_delete twoTenantCluster Option.none (some "X")).2 =
      [Ev.listNs (deleteFieldSelector Option.none) (some (deleteLabelSelector (some "X")))] ∧
    ∀ n, Ev.deleteNs n ∉ (tenant_delete twoTenantCluster Option.none (some "X")).2 :=
  tenant_delete_ambiguous_aborts twoTenantCluster Option.none (some "X")
    (by decide) (by decide)

/-- C6: a tenant delete with neither flag set prints the usage message
and exits with status 1 without issuing any cluster API call: the
outcome is the usage error, the call trace is empty, and the usage
error carries exit status 1. -/
theorem tenant_delete_no_args_usage (c : Cluster) :
    tenant_delete c Option.none Option.none = (DeleteOutcome.usageError, []) ∧
    DeleteOutcome.exitCode DeleteOutcome.usageError = 1 :=
  ⟨rfl, rfl⟩

/-- C8: in tenant delete, when an explicit (truthy) tenant namespace s
was supplied and the namespace query returns exactly one match, the
matched name equals s — under the modelled exact-match field-selector
semantics the consistency assert cannot fail — and the matched
namespace is then deleted: the outcome is deleted s and the trace is
the query followed by the delete call for s. -/
theorem tenant_delete_single_match_consistent (c : Cluster) (s : String)
    (tname : Option String) (it : NsRecord)
    (hs : ¬ s = "")
    (hone : list_namespace c (deleteFieldSelector (some s))
              (some (deleteLabelSelector tname)) = [it]) :
    it.name = s ∧
    tenant_delete c (some s) tname =
      (DeleteOutcome.deleted s,
       [Ev.listNs (deleteFieldSelector (some s)) (some (deleteLabelSelector tname)),
        Ev.deleteNs s]) := by
  have htr : pyTruthy (some s) = true := by simp [pyTruthy, hs]
  have hfs : deleteFieldSelector (some s) = some ("metadata.name=" ++ s) := by
    simp [deleteFieldSelector, htr]
  have hmem : it ∈ list_namespace c (deleteFieldSelector (some s))
      (some (deleteLabelSelector tname)) := by
    rw [hone]; exact List.mem_singleton.mpr rfl
  have hfield : fieldSelectorMatches (deleteFieldSelector (some s)) it = true := by
    have := (List.mem_filter.mp hmem).2
    exact (Bool.and_eq_true_iff.mp this).1
  have hname : it.name = s := by
    rw [hfs] at hfield
    simp only [fieldSelectorMatches] at hfield
    split at hfield
    · next heq => exact (string_append_left_cancel heq).symm
    · exact absurd hfield (by simp)
  refine ⟨hname, ?_⟩
  rw [tenant_delete_eq, htr, hone]
  simp [hname]

/-- C8 witness: deleting with explicit namespace team-a in a cluster
holding exactly that tenant namespace matches it, passes the
consistency check and issues the delete call for team-a. -/
theorem tenant_delete_single_match_consistent_witness :
    (tenantNsRecord "team-a" "Team A").name = "team-a" ∧
    tenant_delete oneTenantCluster (some "team-a") Option.none =
      (DeleteOutcome.deleted "team-a",
       [Ev.listNs (deleteFieldSelector (some "team-a"))
          (some (deleteLabelSelector Option.none)),
        Ev.deleteNs "team-a"]) :=
  tenant_delete_single_match_consistent oneTenantCluster "team-a" Option.none
    (tenantNsRecord "team-a" "Team A") (by decide) (by decide)

/-- C9: the obfuscated environment variable name is GITHUB_TOKEN; on an
invocation without --no-hack-message with that variable set to a truthy
value, main exits with status 1 inside security_reminder before
dispatching any workflow, so no cluster call or subprocess is made;
with --no-hack-message the check is skipped and the workflow is
dispatched regardless of the environment. -/
theorem main_env_var_guard (env : List (String × String)) (verb : String) :
    hackEnvVarName = "GITHUB_TOKEN" ∧
    (∀ tok, alookup env hackEnvVarName = some tok → ¬ tok = "" →
        main_after_parse env false verb = MainOutcome.exitBeforeDispatch 1) ∧
    main_after_parse env true verb = MainOutcome.dispatched verb := by
  refine ⟨by decide, ?_, rfl⟩
  intro tok hlook hne
  simp [main_after_parse, security_reminder, hlook, pyTruthy, hne]

/-- C9 witness: with GITHUB_TOKEN set, a bootstrap invocation without
the suppression flag exits before dispatch. -/
theorem main_env_var_guard_witness :
    main_after_parse [("GITHUB_TOKEN", "tok123")] false "bootstrap"
      = MainOutcome.exitBeforeDispatch 1 :=
  (main_env_var_guard [("GITHUB_TOKEN", "tok123")] "bootstrap").2.1 "tok123"
    (by decide) (by decide)

/-- C10: whenever the installer call succeeds, bootstrap runs the
subprocess git remote get-url origin — for every argument value,
including an explicit --git-url — because the getattr default is
evaluated eagerly; and when that git command fails (the working
directory is not a git clone with an origin remote), bootstrap fails at
that step: the run is not ok and the trace stops after the installer
and the git query. -/
theorem bootstrap_always_runs_git_query (w : SubprocWorld) (args : BootstrapArgs)
    (hins : w.ok fluxInstallCmd = true) :
    Ev.run gitRemoteCmd ∈ (bootstrap w args).trace ∧
    (w.ok gitRemoteCmd = false →
        (bootstrap w args).exitOk = false ∧
        (bootstrap w args).trace = [Ev.run fluxInstallCmd, Ev.run gitRemoteCmd]) := by
  have hpc : pyHasattr "cluster" = false := by decide
  by_cases hgit : w.ok gitRemoteCmd = true
  · constructor
    · simp [bootstrap, get_git_url, hpc, hins, hgit]
    · intro hfalse; rw [hgit] at hfalse; exact absurd hfalse (by simp)
  · have hg : w.ok gitRemoteCmd = false := by simpa using hgit
    constructor
    · simp [bootstrap, get_git_url, hpc, hins, hg]
    · intro _
      constructor <;> simp [bootstrap, get_git_url, hpc, hins, hg]

/-- C10 witness: with an explicit --git-url supplied and a world where
the installer succeeds but the git query fails, bootstrap still runs
the git query and aborts after it. -/
theorem bootstrap_always_runs_git_query_witness :
    Ev.run gitRemoteCmd ∈
      (bootstrap ⟨fun argv => decide (argv = fluxInstallCmd), ""⟩
        { kube_cluster := Option.none, git_url := some "https://example.com/r.git" }).trace ∧
    ((⟨fun argv => decide (argv = fluxInstallCmd), ""⟩ : SubprocWorld).ok gitRemoteCmd = false →
        (bootstrap ⟨fun argv => decide (argv = fluxInstallCmd), ""⟩
          { kube_cluster := Option.none, git_url := some "https://example.com/r.git" }).exitOk
          = false ∧
        (bootstrap ⟨fun argv => decide (argv = fluxInstallCmd), ""⟩
          { kube_cluster := Option.none, git_url := some "https://example.com/r.git" }).trace
          = [Ev.run fluxInstallCmd, Ev.run gitRemoteCmd]) :=
  bootstrap_always_runs_git_query ⟨fun argv => decide (argv = fluxInstallCmd), ""⟩
    { kube_cluster := Option.none, git_url := some "https://example.com/r.git" } (by decide)

/-- C2: tenant add executes its steps strictly in the listed order.
When the template load-and-mutate step fails, no cluster call is
attempted and the failure surfaces. When it yields the descriptor fk,
the attempted calls form an initial segment of the five-call sequence
namespace, config map, service account, role binding, custom resource;
the cluster only grows (no effect of a completed step is undone); on
success all five calls ran and every effect is present; on a cluster
failure the trace ends at the failing call, that exact call fails on
the reached state, every later step is unattempted, and the effects of
all completed earlier steps are present in the final state. -/
theorem tenant_add_sequencing (w : ApiWorld) (c : Cluster)
    (load : Except PyError Kustomization) (tns tname : String) :
    (∀ e, descriptor load tns tname = Except.error e →
        tenant_add w c load tns tname =
          { trace := [], cluster := c, failure := some (AddFailure.template e) }) ∧
    (∀ fk, descriptor load tns tname = Except.ok fk →
        (∃ t, (tenant_add w c load tns tname).trace ++ t = tenant_add_calls tns tname fk) ∧
        Cluster.Grows c (tenant_add w c load tns tname).cluster ∧
        ((tenant_add w c load tns tname).failure = Option.none →
            (tenant_add w c load tns tname).trace = tenant_add_calls tns tname fk ∧
            ∀ ev ∈ (tenant_add w c load tns tname).trace,
              evEffectIn ev (tenant_add w c load tns tname).cluster) ∧
        (∀ e, (tenant_add w c load tns tname).failure = some (AddFailure.api e) →
            ∃ pre ev, (tenant_add w c load tns tname).trace = pre ++ [ev] ∧
              apply1 w (tenant_add w c load tns tname).cluster ev = Except.error e ∧
              ∀ ev2 ∈ pre, evEffectIn ev2 (tenant_add w c load tns tname).cluster)) := by
  constructor
  · intro e he
    simp [tenant_add, he]
  · intro fk hfk
    have hta : tenant_add w c load tns tname =
        { trace := (runCalls w c (tenant_add_calls tns tname fk)).trace,
          cluster := (runCalls w c (tenant_add_calls tns tname fk)).cluster,
          failure :=
            (runCalls w c (tenant_add_calls tns tname fk)).error.map AddFailure.api } := by
      simp [tenant_add, hfk]
    rw [hta]
    dsimp only
    refine ⟨runCalls_trace_initial w c _, runCalls_grows w c _, ?_, ?_⟩
    · intro hnone
      have herrnone : (runCalls w c (tenant_add_calls tns tname fk)).error = Option.none := by
        rcases hx : (runCalls w c (tenant_add_calls tns tname fk)).error with _ | e2
        · rfl
        · rw [hx] at hnone; exact absurd hnone (by simp)
      have htr3 := runCalls_none_trace w c (tenant_add_calls tns tname fk) herrnone
      refine ⟨htr3, ?_⟩
      intro ev hmem
      rw [htr3] at hmem
      exact runCalls_none_effects w c _ herrnone ev hmem
    · intro e hsome
      have herr : (runCalls w c (tenant_add_calls tns tname fk)).error = some e := by
        rcases hx : (runCalls w c (tenant_add_calls tns tname fk)).error with _ | e2
        · rw [hx] at hsome; exact absurd hsome (by simp)
        · rw [hx] at hsome
          have : e2 = e := by
            have h2 : AddFailure.api e2 = AddFailure.api e := by simpa using hsome
            cases h2; rfl
          rw [this]
      obtain ⟨pre, ev, htr2, hrun, happ⟩ := runCalls_error_split w c _ e herr
      refine ⟨pre, ev, htr2, happ, ?_⟩
      intro ev2 hmem
      have hpre : (runCalls w c pre).error = Option.none := by rw [hrun]
      have heff := runCalls_none_effects w c pre hpre ev2 hmem
      rw [hrun] at heff
      exact heff

/-- C2 witness: for a concrete reachable empty cluster and the modelled
template, the trace of tenant add is an initial segment of its five-call
sequence. -/
theorem tenant_add_sequencing_witness :
    ∃ t, (tenant_add reachableWorld emptyCluster (Except.ok templateFile)
            "team-a" "Team A").trace ++ t =
          tenant_add_calls "team-a" "Team A"
            { metadata_name := "dummy",
              metadata_namespace := some "team-a",
              spec_targetNamespace := some "team-a",
              spec_postBuild_substitute := some [("SUBST_LITERAL", "Team A")] } :=
  ((tenant_add_sequencing reachableWorld emptyCluster (Except.ok templateFile)
      "team-a" "Team A").2
    { metadata_name := "dummy",
      metadata_namespace := some "team-a",
      spec_targetNamespace := some "team-a",
      spec_postBuild_substitute := some [("SUBST_LITERAL", "Team A")] } rfl).1

/-- C4: every namespace this tool ever creates carries the two
identifying labels. A namespace-creation call can only appear in the
trace of tenant add, where its record maps the tenant-name label to the
tenant name and the GitOps tenant label to the namespace; bootstrap and
tenant delete never issue one, and tenant list issues only a query. -/
theorem created_namespace_always_labelled (w : ApiWorld) (c : Cluster)
    (load : Except PyError Kustomization) (tns tname : String) (r : NsRecord) :
    (Ev.createNs r ∈ (tenant_add w c load tns tname).trace →
        alookup r.labels tenant_name_label = some tname ∧
        alookup r.labels flux_tenant_label = some tns) ∧
    (∀ (ws : SubprocWorld) (bargs : BootstrapArgs),
        Ev.createNs r ∉ (bootstrap ws bargs).trace) ∧
    (∀ tns2 tname2, Ev.createNs r ∉ (tenant_delete c tns2 tname2).2) := by
  refine ⟨?_, fun ws bargs => bootstrap_no_createNs ws bargs r,
          fun tns2 tname2 => tenant_delete_no_createNs c tns2 tname2 r⟩
  intro hmem
  rcases hd : descriptor load tns tname with e | fk
  · rw [tenant_add, hd] at hmem
    exact absurd hmem (by simp)
  · rw [tenant_add, hd] at hmem
    dsimp only at hmem
    obtain ⟨t, ht⟩ := runCalls_trace_initial w c (tenant_add_calls tns tname fk)
    have hmem2 : Ev.createNs r ∈ tenant_add_calls tns tname fk := by
      rw [← ht]
      exact List.mem_append_left _ hmem
    have hr : r = tenantNsRecord tns tname := by
      simp [tenant_add_calls] at hmem2
      exact hmem2
    rw [hr]
    constructor
    · simp [tenantNsRecord, alookup]
    · simp [tenantNsRecord, alookup, tenant_name_label, flux_tenant_label]

/-- C4 witness: the namespace record created in a concrete tenant add
carries both labels. -/
theorem created_namespace_always_labelled_witness :
    alookup (tenantNsRecord "team-a" "Team A").labels tenant_name_label = some "Team A" ∧
    alookup (tenantNsRecord "team-a" "Team A").labels flux_tenant_label = some "team-a" :=
  (created_namespace_always_labelled reachableWorld emptyCluster
    (Except.ok templateFile) "team-a" "Team A" (tenantNsRecord "team-a" "Team A")).1
    (by decide)

theorem tenant_add_cluster_namespaces (w : ApiWorld) (c : Cluster)
    (load : Except PyError Kustomization) (tns tname : String) (fk : Kustomization)
    (hreach : ∀ ev, w.reachable ev = true)
    (hfresh : ∀ r ∈ c.namespaces, ¬ r.name = tns)
    (hload : descriptor load tns tname = Except.ok fk) :
    (tenant_add w c load tns tname).cluster.namespaces =
      c.namespaces ++ [tenantNsRecord tns tname] := by
  rw [tenant_add, hload]
  dsimp only
  rw [tenant_add_calls, runCalls_cons]
  have ha : apply1 w c (Ev.createNs (tenantNsRecord tns tname)) =
      Except.ok { c with namespaces := c.namespaces ++ [tenantNsRecord tns tname] } := by
    simp only [apply1, hreach (Ev.createNs (tenantNsRecord tns tname)),
      Bool.not_true, Cluster.createNamespace]
    rw [if_neg (by simp), if_neg ?hfr]
    case hfr =>
      intro hany
      rw [List.any_eq_true] at hany
      obtain ⟨x, hx, hxe⟩ := hany
      exact hfresh x hx (by simpa [tenantNsRecord] using hxe)
  rw [ha]
  dsimp only
  rw [runCalls_namespaces_stable]
  intro r hr
  simp at hr

/-- C7: for every tenant namespace and name, starting from a reachable
cluster containing no namespace of that name and a template that loads
and mutates successfully, running tenant add and then tenant list
yields exactly one output row whose namespace column is the tenant
namespace and whose name column is the tenant name (that row also shows
the Active phase). -/
theorem tenant_add_then_list_one_row (w : ApiWorld) (c : Cluster)
    (load : Except PyError Kustomization) (tns tname : String) (fk : Kustomization)
    (hreach : ∀ ev, w.reachable ev = true)
    (hfresh : ∀ r ∈ c.namespaces, ¬ r.name = tns)
    (hload : descriptor load tns tname = Except.ok fk) :
    (tenant_list (tenant_add w c load tns tname).cluster).filter
        (fun row => decide (row.nsName = tns ∧ row.tenantName = tname)) =
      [{ nsName := tns, tenantName := tname, phase := "Active" }] := by
  have hns := tenant_add_cluster_namespaces w c load tns tname fk hreach hfresh hload
  rw [tenant_list, list_namespace, hns, List.filter_append, List.map_append,
    List.filter_append]
  have hold : ((c.namespaces.filter
      (fun r => fieldSelectorMatches Option.none r &&
                labelSelectorOptMatches (some tenant_name_label) r.labels)).map
        (fun r => { nsName := r.name,
                    tenantName := (alookup r.labels tenant_name_label).getD "",
                    phase := r.phase })).filter
      (fun row => decide (row.nsName = tns ∧ row.tenantName = tname)) =
      ([] : List TenantRow) := by
    rw [List.filter_eq_nil_iff]
    intro row hrow
    obtain ⟨r, hr, hr2⟩ := List.mem_map.mp hrow
    have hrc : r ∈ c.namespaces := (List.mem_filter.mp hr).1
    have hne := hfresh r hrc
    rw [← hr2]
    simp [hne]
  have hnew : (([tenantNsRecord tns tname].filter
      (fun r => fieldSelectorMatches Option.none r &&
                labelSelectorOptMatches (some tenant_name_label) r.labels)).map
        (fun r => ({ nsName := r.name,
                     tenantName := (alookup r.labels tenant_name_label).getD "",
                     phase := r.phase } : TenantRow))).filter
      (fun row => decide (row.nsName = tns ∧ row.tenantName = tname)) =
      [({ nsName := tns, tenantName := tname, phase := "Active" } : TenantRow)] := by
    simp [tenantNsRecord, fieldSelectorMatches, labelSelectorOptMatches,
      labelSelectorMatches, alookup]
  rw [hold, hnew]
  rfl

/-- C7 witness: adding tenant team-a with name Team A to the empty
reachable cluster and listing yields exactly the row for team-a. -/
theorem tenant_add_then_list_one_row_witness :
    (tenant_list (tenant_add reachableWorld emptyCluster (Except.ok templateFile)
        "team-a" "Team A").cluster).filter
        (fun row => decide (row.nsName = "team-a" ∧ row.tenantName = "Team A")) =
      [{ nsName := "team-a", tenantName := "Team A", phase := "Active" }] :=
  tenant_add_then_list_one_row reachableWorld emptyCluster (Except.ok templateFile)
    "team-a" "Team A"
    { metadata_name := "dummy",
      metadata_namespace := some "team-a",
      spec_targetNamespace := some "team-a",
      spec_postBuild_substitute := some [("SUBST_LITERAL", "Team A")] }
    (fun _ => rfl) (by decide) rfl

end Ctrl
